import Mathlib

/-!
Verification of `ConferencePeerConnectionChannel`
(talk/owt/sdk/conference/conferencepeerconnectionchannel.cc).

This file shallowly embeds the channel's data model and operations:
signaling-state tracking, the ICE-candidate buffer, the publish/subscribe
lifecycle with its dual-condition subscribe-readiness gate, the
subscribe-option admission check `SubOptionAllowed`, and the fault/teardown
path `OnStreamError`.  C++ callbacks (`std::function` slots) are modeled as
`Option Nat` callback identifiers; tasks posted to the event queue are
modeled explicitly; `double`-valued fields that the source only compares
for equality (frame rates, bitrate multipliers) are modeled as `Nat`.
-/

namespace Owt

/-- Transport signaling states (webrtc::PeerConnectionInterface::SignalingState). -/
inductive SignalingState where
  | stable
  | haveLocalOffer
  | haveLocalPrAnswer
  | haveRemoteOffer
  | haveRemotePrAnswer
  | closed
deriving DecidableEq

/-- A video resolution, compared component-wise (owt::base::Resolution). -/
structure Resolution where
  width : Nat
  height : Nat
deriving DecidableEq

/-- A media track; the source only inspects whether its state is kLive. -/
structure Track where
  live : Bool
deriving DecidableEq

/-- A webrtc media stream: an id plus its audio and video track lists. -/
structure MediaStream where
  id : String
  audioTracks : List Track
  videoTracks : List Track
deriving DecidableEq

/-- A local stream to be published.  `mediaStream` is the underlying media
handle (`stream->MediaStream()`, possibly null).  The source reads from
`Source()` only whether the audio/video source is kScreenCast. -/
structure LocalStream where
  mediaStream : Option MediaStream
  attributes : List (String × String) := []
  audioSourceIsScreenCast : Bool := false
  videoSourceIsScreenCast : Bool := false
deriving DecidableEq

/-- Per-rid video publication settings.  Only the fields the source reads
are modeled (`rid`, `track_id`, `resolution`, `frame_rate`,
`keyframe_interval`); publication settings carry no bitrate multiplier. -/
structure VideoPublicationSettings where
  rid : String := ""
  track_id : String := ""
  resolution : Resolution := ⟨0, 0⟩
  frame_rate : Nat := 0
  keyframe_interval : Nat := 0
deriving DecidableEq

/-- A remote stream's publication settings (list of per-rid video settings). -/
structure PublicationSettings where
  video : List VideoPublicationSettings := []
deriving DecidableEq

/-- A remote stream's declared video subscription capability ranges. -/
structure VideoSubscriptionCapabilities where
  resolutions : List Resolution := []
  frame_rates : List Nat := []
  keyframe_intervals : List Nat := []
  bitrate_multipliers : List Nat := []
deriving DecidableEq

/-- A remote stream's declared subscription capabilities. -/
structure SubscriptionCapabilities where
  video : VideoSubscriptionCapabilities := {}
deriving DecidableEq

/-- Requested audio subscription constraints (only `disabled` is read). -/
structure AudioSubscriptionConstraints where
  disabled : Bool := false
deriving DecidableEq

/-- Requested video subscription constraints. -/
structure VideoSubscriptionConstraints where
  disabled : Bool := false
  resolution : Resolution := ⟨0, 0⟩
  frameRate : Nat := 0
  keyFrameInterval : Nat := 0
  bitrateMultiplier : Nat := 0
  rid : String := ""
deriving DecidableEq

/-- Options supplied to `Subscribe`. -/
structure SubscribeOptions where
  audio : AudioSubscriptionConstraints := {}
  video : VideoSubscriptionConstraints := {}
deriving DecidableEq

/-- A remote stream to be subscribed. -/
structure RemoteStream where
  id : String
  hasAudio : Bool := false
  hasVideo : Bool := false
  settings : PublicationSettings := {}
  capabilities : SubscriptionCapabilities := {}
  attachedMedia : Option MediaStream := none
deriving DecidableEq

/-! ## SubOptionAllowed (conferencepeerconnectionchannel.cc lines 491-579) -/

/-- A publication-settings entry matches the requested resolution
(the guard and comparison of the settings loop, lines 518-524). -/
def resMatches (so : SubscribeOptions) (vs : VideoPublicationSettings) : Bool :=
  (so.video.resolution.width != 0) && (so.video.resolution.height != 0) &&
    (vs.resolution.width == so.video.resolution.width) &&
    (vs.resolution.height == so.video.resolution.height)

/-- A publication-settings entry matches the requested frame rate
(lines 527-529). -/
def frMatches (so : SubscribeOptions) (vs : VideoPublicationSettings) : Bool :=
  (so.video.frameRate != 0) && (vs.frame_rate == so.video.frameRate)

/-- A publication-settings entry matches the requested keyframe interval
(lines 532-535). -/
def kfMatches (so : SubscribeOptions) (vs : VideoPublicationSettings) : Bool :=
  (so.video.keyFrameInterval != 0) &&
    (vs.keyframe_interval == so.video.keyFrameInterval)

/-- One iteration of the settings loop in `SubOptionAllowed` (lines 517-536):
each supported flag is set to true on a match and otherwise kept. -/
def subOptionLoopStep (so : SubscribeOptions) (acc : Bool × Bool × Bool)
    (vs : VideoPublicationSettings) : Bool × Bool × Bool :=
  ((if resMatches so vs then true else acc.1),
   (if frMatches so vs then true else acc.2.1),
   (if kfMatches so vs then true else acc.2.2))

/-- `SubOptionAllowed` (lines 491-579).  If a simulcast rid is requested it
is looked up in the publication settings and decides the result alone.
Otherwise the four supported flags start out true exactly when the
corresponding option is unspecified (zero), may be set by the settings
loop, and may be set by the capability-list lookups; the result is their
conjunction. -/
def subOptionAllowed (so : SubscribeOptions) (ps : PublicationSettings)
    (caps : SubscriptionCapabilities) : Bool :=
  if so.video.rid != "" then
    ps.video.any (fun vs => vs.rid == so.video.rid)
  else
    let acc := ps.video.foldl (subOptionLoopStep so)
      ((so.video.resolution.width == 0) && (so.video.resolution.height == 0),
       so.video.frameRate == 0,
       so.video.keyFrameInterval == 0)
    let resolutionSupported :=
      if (so.video.resolution.width != 0) && (so.video.resolution.height != 0) &&
          caps.video.resolutions.any (fun r => r == so.video.resolution) then
        true
      else acc.1
    let frameRateSupported :=
      if (so.video.frameRate != 0) &&
          caps.video.frame_rates.any (fun f => f == so.video.frameRate) then
        true
      else acc.2.1
    let keyframeIntervalSupported :=
      if (so.video.keyFrameInterval != 0) &&
          caps.video.keyframe_intervals.any
            (fun k => k == so.video.keyFrameInterval) then
        true
      else acc.2.2
    let bitrateMultiplierSupported :=
      if (so.video.bitrateMultiplier != 0) &&
          caps.video.bitrate_multipliers.any
            (fun b => b == so.video.bitrateMultiplier) then
        true
      else so.video.bitrateMultiplier == 0
    resolutionSupported && frameRateSupported &&
      keyframeIntervalSupported && bitrateMultiplierSupported

/-! ## Signaling payloads (sio::message values) -/

/-- A structured signaling payload (sio::message): string, int, object or
array.  Object fields are kept in insertion order. -/
inductive SigMsg where
  | str (s : String)
  | int (n : Int)
  | obj (fields : List (String × SigMsg))
  | arr (elems : List SigMsg)

/-- Transceiver directions used by the channel. -/
inductive TransceiverDirection where
  | sendOnly
  | recvOnly
deriving DecidableEq

/-- Media kinds for AddTransceiver. -/
inductive MediaKind where
  | audio
  | video
deriving DecidableEq

/-- A transceiver added to the underlying peer connection. -/
structure TransceiverAdd where
  kind : MediaKind
  direction : TransceiverDirection
deriving DecidableEq

/-! ## Channel state -/

/-- The mutable state of a `ConferencePeerConnectionChannel` (fields
initialized by the constructor, lines 61-75, plus the inherited signaling
state; a fresh webrtc peer connection starts in the stable signaling
state).  Callback slots hold an `Option Nat` identifier for the
user-supplied std::function (none models a null slot). -/
structure Channel where
  sessionId : String := ""
  iceRestartNeeded : Bool := false
  connected : Bool := false
  subStreamAdded : Bool := false
  subServerReady : Bool := false
  signalingState : SignalingState := .stable
  iceCandidates : List SigMsg := []
  publishedStream : Option LocalStream := none
  subscribedStream : Option RemoteStream := none
  publishCb : Option Nat := none
  subscribeCb : Option Nat := none
  failureCb : Option Nat := none
  observers : List Nat := []
  audioTransceiverDirection : Option TransceiverDirection := none
  videoTransceiverDirection : Option TransceiverDirection := none
  pcOpen : Bool := true

/-- The channel state right after construction. -/
def initialChannel : Channel := {}

/-- `ResetCallbacks` (lines 1088-1092): clear all three callback slots. -/
def resetCallbacks (c : Channel) : Channel :=
  { c with publishCb := none, subscribeCb := none, failureCb := none }

/-- A failure posted to the event queue for callback `onFailure` (the body
of `CheckNullPointer` and the inline failure posts): nothing is posted when
the failure slot is null. -/
def postFailure (onFailure : Option Nat) (msg : String) : List (Nat × String) :=
  match onFailure with
  | some f => [(f, msg)]
  | none => []

/-! ## Negotiation engine and candidate buffer
(OnSignalingChange lines 154-170, OnIceCandidate lines 231-256,
DrainIceCandidates lines 965-971, IceRestart/DoIceRestart lines 123-135) -/

/-- A locally generated ICE candidate as delivered by the transport. -/
structure IceCandidate where
  sdpMid : String
  sdpMLineIndex : Int
  candidate : String

/-- The candidate signaling message built by `OnIceCandidate`
(lines 234-249): the candidate string is prefixed with "a=" and wrapped in
a `{id, signaling: {type: "candidate", candidate: {...}}}` envelope. -/
def mkCandidateMsg (sessionId : String) (c : IceCandidate) : SigMsg :=
  .obj [("id", .str sessionId),
        ("signaling",
          .obj [("type", .str "candidate"),
                ("candidate",
                  .obj [("sdpMLineIndex", .int c.sdpMLineIndex),
                        ("sdpMid", .str c.sdpMid),
                        ("candidate", .str ("a=" ++ c.candidate))])])]

/-- Channel state together with externally observable negotiation effects:
the SDP messages handed to the signaling channel (in order) and the number
of CreateOffer requests issued. -/
structure NegSys where
  chan : Channel
  sent : List SigMsg := []
  offersRequested : Nat := 0

/-- Transport events relevant to candidate handling. -/
inductive NegEvent where
  | iceCandidate (c : IceCandidate)
  | signalingChange (s : SignalingState)

/-- One transport event.
`iceCandidate`: `OnIceCandidate` (lines 231-256) builds the candidate
message, sends it immediately when the signaling state is stable and
otherwise appends it to the candidate buffer.
`signalingChange`: `OnSignalingChange` (lines 154-170) records the new
state; on a transition into stable it either consumes a pending ICE
restart (clear the flag, clear the buffer, `DoIceRestart` → `CreateOffer`)
or drains the buffer in FIFO order (`DrainIceCandidates`,
lines 965-971). -/
def negStep (s : NegSys) (e : NegEvent) : NegSys :=
  match e with
  | .iceCandidate c =>
      let msg := mkCandidateMsg s.chan.sessionId c
      if s.chan.signalingState = .stable then
        { s with sent := s.sent ++ [msg] }
      else
        { s with chan :=
            { s.chan with iceCandidates := s.chan.iceCandidates ++ [msg] } }
  | .signalingChange st =>
      let c1 := { s.chan with signalingState := st }
      if st = .stable then
        if c1.iceRestartNeeded then
          { chan := { c1 with iceRestartNeeded := false, iceCandidates := [] },
            sent := s.sent,
            offersRequested := s.offersRequested + 1 }
        else
          { chan := { c1 with iceCandidates := [] },
            sent := s.sent ++ c1.iceCandidates,
            offersRequested := s.offersRequested }
      else
        { s with chan := c1 }

/-- Run a sequence of transport events. -/
def runNeg (s : NegSys) (evs : List NegEvent) : NegSys :=
  evs.foldl negStep s

/-- The candidate messages generated by an event sequence, in generation
order (all candidate messages are built with the channel's session id,
which no `NegEvent` changes). -/
def candidateMsgsOf (sessionId : String) (evs : List NegEvent) : List SigMsg :=
  evs.filterMap (fun e =>
    match e with
    | .iceCandidate c => some (mkCandidateMsg sessionId c)
    | .signalingChange _ => none)

/-! ## Event-queue tasks and the subscribe-readiness gate
(OnAddStream lines 172-198, OnSignalingMessage lines 881-964) -/

/-- An observable invocation of a user-supplied callback: the slot's
identifier together with its argument. -/
inductive FireEvent where
  | publishSuccess (cb : Nat) (sessionId : String)
  | subscribeSuccess (cb : Nat) (sessionId : String)
  | failureFired (cb : Nat) (msg : String)
deriving DecidableEq

/-- Tasks the channel posts onto the shared event queue. -/
inductive QTask where
  | firePublishSuccess
  | fireSubscribeSuccess
  | fireFailure
deriving DecidableEq

/-- What a posted task does when it eventually runs. -/
inductive TaskOutcome where
  | crash
  | noop
  | fired (e : FireEvent)
deriving DecidableEq

/-- Body of the subscribe-success task posted by `OnAddStream`
(lines 185-192) and `OnSignalingMessage` (lines 907-914).  The task first
acquires `that->callback_mutex_`, which dereferences the weak-pointer lock
result BEFORE the `if (!that || ...)` liveness check; a destroyed channel
(`none`) is therefore dereferenced, modeled as `.crash`.  On a live
channel it checks the slot, fires the callback with the session id, and
calls `ResetCallbacks`. -/
def subscribeSuccessTask (w : Option Channel) : TaskOutcome × Option Channel :=
  match w with
  | none => (.crash, none)
  | some ch =>
      match ch.subscribeCb with
      | none => (.noop, some ch)
      | some cb => (.fired (.subscribeSuccess cb ch.sessionId),
                    some (resetCallbacks ch))

/-- Body of the publish-success task posted by `OnSignalingMessage`
(lines 892-899); same lock-before-liveness-check shape. -/
def publishSuccessTask (w : Option Channel) : TaskOutcome × Option Channel :=
  match w with
  | none => (.crash, none)
  | some ch =>
      match ch.publishCb with
      | none => (.noop, some ch)
      | some cb => (.fired (.publishSuccess cb ch.sessionId),
                    some (resetCallbacks ch))

/-- Body of the failure task posted by `OnSignalingMessage`
(lines 925-935); same lock-before-liveness-check shape. -/
def failureTask (w : Option Channel) : TaskOutcome × Option Channel :=
  match w with
  | none => (.crash, none)
  | some ch =>
      match ch.failureCb with
      | none => (.noop, some ch)
      | some cb =>
          (.fired (.failureFired cb
             "Server internal error during connection establishment."),
           some (resetCallbacks ch))

/-- Run one queued task on a live channel, recording any callback firing. -/
def runTaskAlive (c : Channel) (t : QTask) : Channel × List FireEvent :=
  let body :=
    match t with
    | .firePublishSuccess => publishSuccessTask (some c)
    | .fireSubscribeSuccess => subscribeSuccessTask (some c)
    | .fireFailure => failureTask (some c)
  match body with
  | (.fired e, some c1) => (c1, [e])
  | (_, some c1) => (c1, [])
  | (_, none) => (c, [])

/-- Channel state together with the event queue's pending tasks and the
record of callback invocations delivered so far. -/
structure ChanSys where
  chan : Channel
  queue : List QTask := []
  fired : List FireEvent := []

/-- `OnAddStream` (lines 172-198): attach the media stream to the
subscribed stream if one exists; then, if a subscribe-success callback is
registered, read the server-ready flag, set the stream-added flag, and if
the server was already ready post the subscribe-success task and reset
both readiness flags. -/
def attachMedia (rs : RemoteStream) (ms : MediaStream) : RemoteStream :=
  { rs with attachedMedia := some ms }

def onAddStream (s : ChanSys) (ms : MediaStream) : ChanSys :=
  let c :=
    match s.chan.subscribedStream with
    | some rs => { s.chan with subscribedStream := some (attachMedia rs ms) }
    | none => s.chan
  if c.subscribeCb.isSome then
    let serverReady := c.subServerReady
    let c1 := { c with subStreamAdded := true }
    if serverReady then
      { chan := { c1 with subServerReady := false, subStreamAdded := false },
        queue := s.queue ++ [.fireSubscribeSuccess],
        fired := s.fired }
    else
      { s with chan := c1 }
  else
    { s with chan := c }

/-- Inbound signaling messages as classified by `OnSignalingMessage`. -/
inductive InboundMessage where
  | nullMsg
  | strMsg (s : String)
  | objMsg

/-- `OnSignalingMessage` (lines 881-964) for the string-acknowledgment
branch: "success" resolves the outstanding publish (post the success task)
or subscribe (set the server-ready flag; if the stream was already
attached, post the subscribe-success task and reset both flags);
"failure" posts the failure task only when not yet connected and a failure
callback is registered.  Object-shaped messages only drive
`SetRemoteDescription` on the transport and do not change channel state;
null and other messages are ignored. -/
def onSignalingMessage (s : ChanSys) (m : InboundMessage) : ChanSys :=
  match m with
  | .nullMsg => s
  | .objMsg => s
  | .strMsg str =>
      if str = "success" then
        if s.chan.publishCb.isSome then
          { s with queue := s.queue ++ [.firePublishSuccess] }
        else if s.chan.subscribeCb.isSome then
          let streamAdded := s.chan.subStreamAdded
          let c1 := { s.chan with subServerReady := true }
          if streamAdded then
            { s with
              chan := { c1 with subServerReady := false,
                                subStreamAdded := false },
              queue := s.queue ++ [.fireSubscribeSuccess] }
          else
            { s with chan := c1 }
        else s
      else if str = "failure" then
        if !s.chan.connected && s.chan.failureCb.isSome then
          { s with queue := s.queue ++ [.fireFailure] }
        else s
      else s

/-- Run every pending task of the event queue in FIFO order. -/
def flushQueue (s : ChanSys) : ChanSys :=
  s.queue.foldl
    (fun acc t =>
      let r := runTaskAlive acc.chan t
      { acc with chan := r.1, fired := acc.fired ++ r.2 })
    { s with queue := [] }

/-! ## Publish (lines 383-489, 986-1050) -/

/-- `IsMediaStreamEnded` (lines 1101-1115): true when no audio track and no
video track is live. -/
def isMediaStreamEnded (m : MediaStream) : Bool :=
  m.audioTracks.all (fun t => !t.live) && m.videoTracks.all (fun t => !t.live)

/-- The "publish options" payload built by `Publish` (lines 438-487):
attributes, per-track media descriptors with fixed mids ("0" for audio;
"0" or "1" for video depending on audio presence) and a source tag, and
transport type "webrtc". -/
def publishOptionsPayload (s : LocalStream) (m : MediaStream) : SigMsg :=
  let attrs := SigMsg.obj (s.attributes.map (fun kv => (kv.1, SigMsg.str kv.2)))
  let audioTrackMsgs :=
    if m.audioTracks.length != 0 then
      [SigMsg.obj [("type", .str "audio"), ("mid", .str "0"),
        ("source",
          .str (if s.audioSourceIsScreenCast then "screen-cast" else "mic"))]]
    else []
  let videoTrackMsgs :=
    if m.videoTracks.length != 0 then
      [SigMsg.obj [("type", .str "video"),
        ("mid", .str (if m.audioTracks.length == 0 then "0" else "1")),
        ("source",
          .str (if s.videoSourceIsScreenCast then "screen-cast" else "camera"))]]
    else []
  .obj [("attributes", attrs),
        ("media", .obj [("tracks", .arr (audioTrackMsgs ++ videoTrackMsgs))]),
        ("transport", .obj [("type", .str "webrtc")])]

/-- Result of a `Publish` call: the channel state at exit, the failures
posted to the event queue, the initialization message handed to the
signaling channel (payload and media-stream id), and whether execution ran
into undefined behavior / a fatal check. -/
structure PublishResult where
  state : Channel
  posted : List (Nat × String) := []
  initSent : Option (SigMsg × String) := none
  crashed : Bool := false

/-- `Publish` (lines 400-489).  Line 405 records the stream as the
published stream before any check.  The two `CheckNullPointer` calls are
combined with the short-circuiting `||` of line 406: a null stream posts
one fault and skips the media-handle check; a non-null stream with a null
media handle posts one fault.  The if body does not return, so control
falls through: with a null stream, line 410 dereferences it (undefined
behavior); with a null media handle, `IsMediaStreamEnded(nullptr)` fails
its fatal `RTC_CHECK`.  Both are modeled as `crashed`.  An ended stream or
a track-less stream posts a fault and returns.  Otherwise the callbacks
are recorded, both transceiver directions are set to send-only, and the
publish-options initialization message is sent. -/
def publish (c : Channel) (stream : Option LocalStream)
    (onSuccess onFailure : Option Nat) : PublishResult :=
  let c0 := { c with publishedStream := stream }
  match stream with
  | none =>
      { state := c0, posted := postFailure onFailure "Nullptr is not allowed.",
        crashed := true }
  | some s =>
      match s.mediaStream with
      | none =>
          { state := c0,
            posted := postFailure onFailure "Nullptr is not allowed.",
            crashed := true }
      | some m =>
          if isMediaStreamEnded m then
            { state := c0,
              posted := postFailure onFailure "Cannot publish ended stream." }
          else if (m.audioTracks.length == 0) && (m.videoTracks.length == 0) then
            { state := c0,
              posted := postFailure onFailure
                "Cannot publish media stream without any tracks." }
          else
            { state :=
                { c0 with publishCb := onSuccess, failureCb := onFailure,
                          audioTransceiverDirection := some .sendOnly,
                          videoTransceiverDirection := some .sendOnly },
              initSent := some (publishOptionsPayload s m, m.id) }

/-! ## Subscribe (lines 581-716) -/

/-- The quality-level string of line 674-679 for the bitrate multipliers
representable in this embedding (integral doubles): the first three
characters of `std::to_string` on the value, prefixed with "x". -/
def qualityLevelOfBitrate (bm : Nat) : String :=
  "x" ++ (toString bm ++ ".000000").take 3

/-- The video track descriptor of the "subscribe options" payload
(lines 641-698): mid ("0" or "1"), `from` (the matching rid's track id, or
the stream id when no rid is requested), the `parameters` spec (resolution
/ bitrate / keyFrameInterval / framerate, each included only when
specified), and `simulcastRid` when a rid is requested. -/
def subscribeVideoTrackMsg (st : RemoteStream) (so : SubscribeOptions)
    (audioCount : Nat) : SigMsg :=
  let midFields : List (String × SigMsg) :=
    [("mid", .str (if audioCount == 0 then "0" else "1"))]
  let fromFields : List (String × SigMsg) :=
    if so.video.rid != "" then
      match st.settings.video.find? (fun vs => vs.rid == so.video.rid) with
      | some vs => [("from", .str vs.track_id)]
      | none => []
    else
      [("from", .str st.id)]
  let resFields : List (String × SigMsg) :=
    if (so.video.resolution.width != 0) && (so.video.resolution.height != 0) then
      [("resolution",
        .obj [("width", .int so.video.resolution.width),
              ("height", .int so.video.resolution.height)])]
    else []
  let qualityLevel :=
    if so.video.bitrateMultiplier != 0 then
      qualityLevelOfBitrate so.video.bitrateMultiplier
    else "x1.0"
  let brFields : List (String × SigMsg) :=
    if qualityLevel != "x1.0" then [("bitrate", .str qualityLevel)] else []
  let kfFields : List (String × SigMsg) :=
    if so.video.keyFrameInterval != 0 then
      [("keyFrameInterval", .int so.video.keyFrameInterval)]
    else []
  let frFields : List (String × SigMsg) :=
    if so.video.frameRate != 0 then
      [("framerate", .int so.video.frameRate)]
    else []
  let ridFields : List (String × SigMsg) :=
    if so.video.rid != "" then
      [("simulcastRid", .str so.video.rid)]
    else []
  .obj ([("type", SigMsg.str "video")] ++ midFields ++ fromFields ++
        [("parameters", .obj (resFields ++ brFields ++ kfFields ++ frFields))] ++
        ridFields)

/-- The "subscribe options" payload of lines 630-705. -/
def subscribeOptionsPayload (st : RemoteStream) (so : SubscribeOptions)
    (audioCount videoCount : Nat) : SigMsg :=
  let audioTrackMsgs :=
    if audioCount > 0 then
      [SigMsg.obj [("type", .str "audio"), ("mid", .str "0"),
                   ("from", .str st.id)]]
    else []
  let videoTrackMsgs :=
    if videoCount > 0 then [subscribeVideoTrackMsg st so audioCount] else []
  .obj [("media", .obj [("tracks", .arr (audioTrackMsgs ++ videoTrackMsgs))]),
        ("transport", .obj [("type", .str "webrtc")])]

/-- Result of a `Subscribe` call: channel state at exit, posted failures,
transceivers added, the initialization message (payload, publish id "",
source stream id), and whether execution dereferenced a null stream. -/
structure SubscribeResult where
  state : Channel
  posted : List (Nat × String) := []
  transceiversAdded : List TransceiverAdd := []
  initSent : Option (SigMsg × String × String) := none
  crashed : Bool := false

/-- `Subscribe` (lines 581-716).  A null stream is dereferenced at lines
586/589 before the `CheckNullPointer` of line 602 runs (modeled as
`crashed`).  Unsupported options post a fault and return.  A subscribe
already in flight posts a fault — but the source does not return there
(unlike the parallel guard in `Unsubscribe`), so the call continues:
both callback slots are overwritten, a receive-only transceiver is added
per enabled media kind, the initialization message is sent, and the
subscribed stream is recorded. -/
def subscribe (c : Channel) (stream : Option RemoteStream)
    (so : SubscribeOptions) (onSuccess onFailure : Option Nat) :
    SubscribeResult :=
  match stream with
  | none => { state := c, crashed := true }
  | some st =>
      if !(subOptionAllowed so st.settings st.capabilities) then
        { state := c,
          posted := postFailure onFailure "Unsupported subscribe option." }
      else
        let posted0 :=
          if c.subscribeCb.isSome then
            postFailure onFailure "Subscribing this stream."
          else []
        let c1 := { c with subscribeCb := onSuccess, failureCb := onFailure }
        let audioCount := if st.hasAudio && !so.audio.disabled then 1 else 0
        let videoCount := if st.hasVideo && !so.video.disabled then 1 else 0
        let transA : List TransceiverAdd :=
          if audioCount == 1 then [⟨.audio, .recvOnly⟩] else []
        let transV : List TransceiverAdd :=
          if videoCount == 1 then [⟨.video, .recvOnly⟩] else []
        { state := { c1 with subscribedStream := some st },
          posted := posted0,
          transceiversAdded := transA ++ transV,
          initSent := some (subscribeOptionsPayload st so audioCount videoCount,
                            "", st.id) }

/-! ## Teardown and role-dependent operations
(Unpublish lines 717-737, Unsubscribe lines 738-769,
SendStreamControlMessage lines 770-787, GetConnectionStats lines 823-866,
OnStreamError lines 1054-1075) -/

/-- Result of an Unpublish/Unsubscribe call. -/
structure TeardownResult where
  state : Channel
  posted : List (Nat × String) := []
  events : List String := []
  closedConnection : Bool := false

/-- `Unpublish` (lines 717-737): a session-id mismatch posts a fault and
changes nothing; otherwise mark disconnected, send the "unpublish" stream
event, and close the peer connection (a no-op when already closed). -/
def unpublish (c : Channel) (sid : String) (onFailure : Option Nat) :
    TeardownResult :=
  if sid ≠ c.sessionId then
    { state := c,
      posted := postFailure onFailure "Invalid stream to be unpublished." }
  else
    { state := { c with connected := false, pcOpen := false },
      events := ["unpublish"],
      closedConnection := c.pcOpen }

/-- `Unsubscribe` (lines 738-769): a session-id mismatch posts a fault; a
subscribe still in flight posts a fault and returns; otherwise mark
disconnected, send the "unsubscribe" stream event, and close the peer
connection. -/
def unsubscribe (c : Channel) (sid : String) (onFailure : Option Nat) :
    TeardownResult :=
  if sid ≠ c.sessionId then
    { state := c,
      posted := postFailure onFailure "Invalid stream to be unsubscribed." }
  else if c.subscribeCb.isSome then
    { state := c,
      posted := postFailure onFailure
        "Cannot unsubscribe a stream during subscribing." }
  else
    { state := { c with connected := false, pcOpen := false },
      events := ["unsubscribe"],
      closedConnection := c.pcOpen }

/-- Where `SendStreamControlMessage` routes (lines 770-787). -/
inductive ControlRoute where
  | streamControl (sessionId action operation : String)
  | subscriptionControl (sessionId action operation : String)
  | dcheckFailed
deriving DecidableEq

/-- `SendStreamControlMessage` (lines 770-787): a held published stream
routes the out-action to the stream-control message; otherwise a held
subscribed stream routes the in-action to the subscription-control
message; with neither, a fatal `RTC_DCHECK(false)`. -/
def sendStreamControlMessage (c : Channel) (inAction outAction operation : String) :
    ControlRoute :=
  if c.publishedStream.isSome then
    .streamControl c.sessionId outAction operation
  else if c.subscribedStream.isSome then
    .subscriptionControl c.sessionId inAction operation
  else
    .dcheckFailed

/-- What `GetConnectionStats` does (lines 823-866). -/
inductive StatsResult where
  | noStreamFault
  | statsRequested
deriving DecidableEq

/-- `GetConnectionStats` (lines 823-866): with neither stream it posts a
"No stream associated with the session" fault; otherwise it requests stats
from the peer connection. -/
def getConnectionStats (c : Channel) : StatsResult :=
  if c.publishedStream.isNone && c.subscribedStream.isNone then
    .noStreamFault
  else
    .statsRequested

/-- Which stream object was handed to the observers / recorded as
`error_stream`. -/
inductive StreamTag where
  | published
  | subscribed
deriving DecidableEq

/-- Result of `OnStreamError`. -/
structure StreamErrorResult where
  state : Channel
  notified : List (Nat × Option StreamTag × String) := []
  events : List String := []
  posted : List (Nat × String) := []
  dcheckFailed : Bool := false

/-- `OnStreamError` (lines 1054-1075): `error_stream` is declared null and
is only assigned AFTER the observer loop, so every observer is notified
with a null stream; then `Unpublish`/`Unsubscribe` is attempted for
whichever role is active (with null callbacks), and the trailing
`RTC_DCHECK` fires when neither stream exists. -/
def onStreamError (c : Channel) (msg : String) : StreamErrorResult :=
  let notified := c.observers.map
    (fun o => (o, (none : Option StreamTag), msg))
  if c.publishedStream.isSome then
    let r := unpublish c c.sessionId none
    if r.state.subscribedStream.isSome then
      let r2 := unsubscribe r.state r.state.sessionId none
      { state := r2.state, notified := notified,
        events := r.events ++ r2.events, posted := r.posted ++ r2.posted }
    else
      { state := r.state, notified := notified,
        events := r.events, posted := r.posted }
  else if c.subscribedStream.isSome then
    let r2 := unsubscribe c c.sessionId none
    { state := r2.state, notified := notified,
      events := r2.events, posted := r2.posted }
  else
    { state := c, notified := notified, dcheckFailed := true }

/-! ## Spec-side characterizations of SubOptionAllowed

These definitions follow the specification's words ("each independently
supported if unspecified in the request, or if explicitly requested and
matched against either the stream's current publication settings or its
declared capability ranges") and are compared against `subOptionAllowed`,
which is translated from the source. -/

/-- Spec wording: the requested resolution is supported when unspecified
(zero), or when explicitly requested and matched against the publication
settings or the capability ranges. -/
def specResolutionSupported (so : SubscribeOptions) (ps : PublicationSettings)
    (caps : SubscriptionCapabilities) : Prop :=
  (so.video.resolution.width = 0 ∧ so.video.resolution.height = 0) ∨
  (so.video.resolution.width ≠ 0 ∧ so.video.resolution.height ≠ 0 ∧
    ((∃ vs ∈ ps.video,
        vs.resolution.width = so.video.resolution.width ∧
        vs.resolution.height = so.video.resolution.height) ∨
     so.video.resolution ∈ caps.video.resolutions))

/-- Spec wording for the requested frame rate. -/
def specFrameRateSupported (so : SubscribeOptions) (ps : PublicationSettings)
    (caps : SubscriptionCapabilities) : Prop :=
  so.video.frameRate = 0 ∨
  (so.video.frameRate ≠ 0 ∧
    ((∃ vs ∈ ps.video, vs.frame_rate = so.video.frameRate) ∨
     so.video.frameRate ∈ caps.video.frame_rates))

/-- Spec wording for the requested keyframe interval. -/
def specKeyFrameIntervalSupported (so : SubscribeOptions)
    (ps : PublicationSettings) (caps : SubscriptionCapabilities) : Prop :=
  so.video.keyFrameInterval = 0 ∨
  (so.video.keyFrameInterval ≠ 0 ∧
    ((∃ vs ∈ ps.video, vs.keyframe_interval = so.video.keyFrameInterval) ∨
     so.video.keyFrameInterval ∈ caps.video.keyframe_intervals))

/-- Spec wording for the requested bitrate multiplier.  Publication
settings carry no bitrate multiplier field, so only the capability range
can match an explicitly requested multiplier. -/
def specBitrateMultiplierSupported (so : SubscribeOptions)
    (caps : SubscriptionCapabilities) : Prop :=
  so.video.bitrateMultiplier = 0 ∨
  (so.video.bitrateMultiplier ≠ 0 ∧
   so.video.bitrateMultiplier ∈ caps.video.bitrate_multipliers)

/-! ## Lemmas about SubOptionAllowed -/

theorem if_then_true (b x : Bool) : (if b = true then true else x) = (b || x) := by
  cases b <;> simp

theorem foldl_subOptionLoopStep (so : SubscribeOptions)
    (l : List VideoPublicationSettings) (a b c : Bool) :
    l.foldl (subOptionLoopStep so) (a, b, c) =
      (a || l.any (resMatches so), b || l.any (frMatches so),
       c || l.any (kfMatches so)) := by
  induction l generalizing a b c with
  | nil => simp
  | cons v t ih =>
      simp only [List.foldl_cons, List.any_cons, subOptionLoopStep]
      rw [ih]
      cases h1 : resMatches so v <;> cases h2 : frMatches so v <;>
        cases h3 : kfMatches so v <;>
          simp [h1, h2, h3, Bool.or_assoc, Bool.or_comm, Bool.or_left_comm]

theorem any_resMatches_iff (so : SubscribeOptions) (ps : PublicationSettings) :
    ps.video.any (resMatches so) = true ↔
      (so.video.resolution.width ≠ 0 ∧ so.video.resolution.height ≠ 0 ∧
       ∃ vs ∈ ps.video,
         vs.resolution.width = so.video.resolution.width ∧
         vs.resolution.height = so.video.resolution.height) := by
  simp only [List.any_eq_true, resMatches, Bool.and_eq_true, bne_iff_ne,
    beq_iff_eq]
  constructor
  · rintro ⟨vs, hvs, ⟨⟨hw, hh⟩, h1⟩, h2⟩
    exact ⟨hw, hh, vs, hvs, h1, h2⟩
  · rintro ⟨hw, hh, vs, hvs, h1, h2⟩
    exact ⟨vs, hvs, ⟨⟨hw, hh⟩, h1⟩, h2⟩

theorem any_frMatches_iff (so : SubscribeOptions) (ps : PublicationSettings) :
    ps.video.any (frMatches so) = true ↔
      (so.video.frameRate ≠ 0 ∧
       ∃ vs ∈ ps.video, vs.frame_rate = so.video.frameRate) := by
  simp only [List.any_eq_true, frMatches, Bool.and_eq_true, bne_iff_ne,
    beq_iff_eq]
  constructor
  · rintro ⟨vs, hvs, hf, h1⟩
    exact ⟨hf, vs, hvs, h1⟩
  · rintro ⟨hf, vs, hvs, h1⟩
    exact ⟨vs, hvs, hf, h1⟩

theorem any_kfMatches_iff (so : SubscribeOptions) (ps : PublicationSettings) :
    ps.video.any (kfMatches so) = true ↔
      (so.video.keyFrameInterval ≠ 0 ∧
       ∃ vs ∈ ps.video, vs.keyframe_interval = so.video.keyFrameInterval) := by
  simp only [List.any_eq_true, kfMatches, Bool.and_eq_true, bne_iff_ne,
    beq_iff_eq]
  constructor
  · rintro ⟨vs, hvs, hk, h1⟩
    exact ⟨hk, vs, hvs, h1⟩
  · rintro ⟨hk, vs, hvs, h1⟩
    exact ⟨vs, hvs, hk, h1⟩

/-- Claim C7: for every SubscribeOptions with a non-empty simulcast rid,
`SubOptionAllowed` returns true iff some entry of the stream's
publication-settings video list has that rid, regardless of all other
requested options; and for options with rid empty and resolution {0,0},
frame rate 0, keyframe interval 0 and bitrate multiplier 0 it returns true
regardless of the stream's settings and capabilities. -/
theorem subOptionAllowed_rid_sole_criterion_and_defaults :
    (∀ (so : SubscribeOptions) (ps : PublicationSettings)
       (caps : SubscriptionCapabilities), so.video.rid ≠ "" →
       (subOptionAllowed so ps caps = true ↔
         ∃ vs ∈ ps.video, vs.rid = so.video.rid)) ∧
    (∀ (so : SubscribeOptions) (ps : PublicationSettings)
       (caps : SubscriptionCapabilities),
       so.video.rid = "" → so.video.resolution.width = 0 →
       so.video.resolution.height = 0 → so.video.frameRate = 0 →
       so.video.keyFrameInterval = 0 → so.video.bitrateMultiplier = 0 →
       subOptionAllowed so ps caps = true) := by
  constructor
  · intro so ps caps hrid
    simp [subOptionAllowed, hrid, List.any_eq_true, beq_iff_eq]
  · intro so ps caps h0 h1 h2 h3 h4 h5
    unfold subOptionAllowed
    rw [foldl_subOptionLoopStep]
    simp [h0, h1, h2, h3, h4, h5]

/-- Claim C7 witness: the iff applied at concrete inputs (a matching and a
failing rid lookup) and the all-defaults case. -/
theorem subOptionAllowed_rid_witness :
    (subOptionAllowed
        { video := { rid := "r1" } }
        { video := [{ rid := "r0" }, { rid := "r1", track_id := "t1" }] }
        {} = true) ∧
    (subOptionAllowed {} { video := [] } {} = true) := by
  constructor
  · exact (subOptionAllowed_rid_sole_criterion_and_defaults.1
      { video := { rid := "r1" } }
      { video := [{ rid := "r0" }, { rid := "r1", track_id := "t1" }] }
      {} (by decide)).mpr ⟨{ rid := "r1", track_id := "t1" }, by simp, rfl⟩
  · exact subOptionAllowed_rid_sole_criterion_and_defaults.2
      {} { video := [] } {} rfl rfl rfl rfl rfl rfl

/-- Claim C8: with no simulcast rid requested, each of the four subscribe
options (resolution, frame rate, keyframe interval, bitrate multiplier) is
independently supported exactly when it is unspecified (zero) in the
request, or explicitly requested and matched against either the stream's
current publication settings or its declared capability ranges (for the
bitrate multiplier the publication settings carry no such field, so only
the capability range can match); `SubOptionAllowed` returns true iff all
four are supported. -/
theorem subOptionAllowed_no_rid_characterization (so : SubscribeOptions)
    (ps : PublicationSettings) (caps : SubscriptionCapabilities)
    (hrid : so.video.rid = "") :
    subOptionAllowed so ps caps = true ↔
      (specResolutionSupported so ps caps ∧
       specFrameRateSupported so ps caps ∧
       specKeyFrameIntervalSupported so ps caps ∧
       specBitrateMultiplierSupported so caps) := by
  unfold subOptionAllowed
  rw [foldl_subOptionLoopStep]
  simp only [hrid, bne_self_eq_false, Bool.false_eq_true, if_false]
  simp only [if_then_true]
  simp only [Bool.and_eq_true, Bool.or_eq_true]
  rw [any_resMatches_iff, any_frMatches_iff, any_kfMatches_iff]
  simp only [specResolutionSupported, specFrameRateSupported,
    specKeyFrameIntervalSupported, specBitrateMultiplierSupported,
    List.any_eq_true, beq_iff_eq, bne_iff_ne, exists_eq_right,
    Bool.and_eq_true]
  constructor
  · rintro ⟨⟨⟨hR, hF⟩, hK⟩, hB⟩
    refine ⟨?_, ?_, ?_, ?_⟩
    · rcases hR with ⟨⟨hw, hh⟩, hc⟩ | hu | ⟨hw, hh, hm⟩
      · exact Or.inr ⟨hw, hh, Or.inr hc⟩
      · exact Or.inl hu
      · exact Or.inr ⟨hw, hh, Or.inl hm⟩
    · rcases hF with ⟨hf, hc⟩ | hu | ⟨hf, hm⟩
      · exact Or.inr ⟨hf, Or.inr hc⟩
      · exact Or.inl hu
      · exact Or.inr ⟨hf, Or.inl hm⟩
    · rcases hK with ⟨hk, hc⟩ | hu | ⟨hk, hm⟩
      · exact Or.inr ⟨hk, Or.inr hc⟩
      · exact Or.inl hu
      · exact Or.inr ⟨hk, Or.inl hm⟩
    · rcases hB with ⟨hb, hc⟩ | hu
      · exact Or.inr ⟨hb, hc⟩
      · exact Or.inl hu
  · rintro ⟨hR, hF, hK, hB⟩
    refine ⟨⟨⟨?_, ?_⟩, ?_⟩, ?_⟩
    · rcases hR with hu | ⟨hw, hh, hm | hc⟩
      · exact Or.inr (Or.inl hu)
      · exact Or.inr (Or.inr ⟨hw, hh, hm⟩)
      · exact Or.inl ⟨⟨hw, hh⟩, hc⟩
    · rcases hF with hu | ⟨hf, hm | hc⟩
      · exact Or.inr (Or.inl hu)
      · exact Or.inr (Or.inr ⟨hf, hm⟩)
      · exact Or.inl ⟨hf, hc⟩
    · rcases hK with hu | ⟨hk, hm | hc⟩
      · exact Or.inr (Or.inl hu)
      · exact Or.inr (Or.inr ⟨hk, hm⟩)
      · exact Or.inl ⟨hk, hc⟩
    · rcases hB with hu | ⟨hb, hc⟩
      · exact Or.inr hu
      · exact Or.inl ⟨hb, hc⟩

/-- Claim C8 witness: the characterization applied at a concrete request
matched partly by the publication settings and partly by the capability
ranges. -/
theorem subOptionAllowed_no_rid_witness :
    subOptionAllowed
      { video := { resolution := ⟨640, 480⟩, frameRate := 30,
                   keyFrameInterval := 0, bitrateMultiplier := 2 } }
      { video := [{ resolution := ⟨640, 480⟩, frame_rate := 25 }] }
      { video := { frame_rates := [30], bitrate_multipliers := [2] } }
      = true := by
  exact (subOptionAllowed_no_rid_characterization _ _ _ rfl).mpr
    (by
      unfold specResolutionSupported specFrameRateSupported
        specKeyFrameIntervalSupported specBitrateMultiplierSupported
      decide)

/-! ## Claim C1: subscribe-readiness gate -/

/-- Run for the order server-ack first, then stream-attach. -/
def ackThenAddRun (c0 : Channel) (ms : MediaStream) : ChanSys :=
  onAddStream (onSignalingMessage { chan := c0 } (.strMsg "success")) ms

/-- Run for the order stream-attach first, then server-ack. -/
def addThenAckRun (c0 : Channel) (ms : MediaStream) : ChanSys :=
  onSignalingMessage (onAddStream { chan := c0 } ms) (.strMsg "success")

/-- Claim C1: for a pending subscribe, the success callback fires exactly
once, the first time both readiness flags (stream attached via OnAddStream
and an inbound "success" acknowledgment) are true, in either arrival order,
with identical observable result (the callback invoked with the session
id); both flags are reset to false immediately after the firing is posted,
and duplicate later events cause no further firing. -/
theorem subscribe_readiness_fires_once_commutatively
    (c0 : Channel) (ms ms2 : MediaStream) (cb : Nat)
    (hsub : c0.subscribeCb = some cb) (hpub : c0.publishCb = none)
    (hadd : c0.subStreamAdded = false) (hrdy : c0.subServerReady = false) :
    ((onSignalingMessage { chan := c0 } (.strMsg "success")).queue = [] ∧
     (onSignalingMessage { chan := c0 } (.strMsg "success")).fired = []) ∧
    ((onAddStream { chan := c0 } ms).queue = [] ∧
     (onAddStream { chan := c0 } ms).fired = []) ∧
    ((ackThenAddRun c0 ms).chan.subStreamAdded = false ∧
     (ackThenAddRun c0 ms).chan.subServerReady = false ∧
     (addThenAckRun c0 ms).chan.subStreamAdded = false ∧
     (addThenAckRun c0 ms).chan.subServerReady = false) ∧
    ((flushQueue (ackThenAddRun c0 ms)).fired
        = [.subscribeSuccess cb c0.sessionId] ∧
     (flushQueue (addThenAckRun c0 ms)).fired
        = [.subscribeSuccess cb c0.sessionId]) ∧
    (flushQueue (onAddStream
        (onSignalingMessage (flushQueue (ackThenAddRun c0 ms))
          (.strMsg "success")) ms2)).fired
      = [.subscribeSuccess cb c0.sessionId] := by
  cases hss : c0.subscribedStream with
  | none =>
      simp [ackThenAddRun, addThenAckRun, onAddStream, onSignalingMessage,
        flushQueue, runTaskAlive, subscribeSuccessTask, publishSuccessTask,
        failureTask, resetCallbacks, hsub, hpub, hadd, hrdy, hss]
  | some rs =>
      simp [ackThenAddRun, addThenAckRun, onAddStream, onSignalingMessage,
        flushQueue, runTaskAlive, subscribeSuccessTask, publishSuccessTask,
        failureTask, resetCallbacks, hsub, hpub, hadd, hrdy, hss]

/-- Concrete pending-subscribe channel for the C1 witness. -/
def c1Chan : Channel := { sessionId := "w1", subscribeCb := some 3 }

/-- Concrete incoming media stream for the C1 witness. -/
def c1Media : MediaStream := ⟨"m", [], []⟩

/-- Claim C1 witness: both arrival orders at a concrete pending subscribe
fire the callback exactly once with the session id. -/
theorem subscribe_readiness_witness :
    (flushQueue (ackThenAddRun c1Chan c1Media)).fired
        = [.subscribeSuccess 3 c1Chan.sessionId] ∧
    (flushQueue (addThenAckRun c1Chan c1Media)).fired
        = [.subscribeSuccess 3 c1Chan.sessionId] :=
  (subscribe_readiness_fires_once_commutatively c1Chan c1Media c1Media 3
    rfl rfl rfl rfl).2.2.2.1

/-! ## Claim C9: posted tasks and channel liveness -/

/-- Claim C9 (code evaluation): each task the channel posts for the
subscribe-success firing in OnAddStream and the publish/subscribe success
and failure firings in OnSignalingMessage acquires `that->callback_mutex_`
— dereferencing the locked weak pointer — BEFORE the
`if (!that || ...)` liveness check, so on a destroyed channel the task
dereferences null instead of silently no-oping. -/
theorem posted_tasks_crash_on_dead_channel :
    (subscribeSuccessTask none).1 = TaskOutcome.crash ∧
    (publishSuccessTask none).1 = TaskOutcome.crash ∧
    (failureTask none).1 = TaskOutcome.crash :=
  ⟨rfl, rfl, rfl⟩

/-! ## Claim C4: concurrent subscribe -/

/-- A channel with a subscribe already in flight (slot 7) for the C4
evaluation. -/
def c4Chan : Channel := { sessionId := "s4", subscribeCb := some 7,
                          failureCb := some 5 }

/-- The remote stream of the C4 evaluation. -/
def c4Stream : RemoteStream := { id := "r4", hasAudio := true }

/-- Claim C4 (code evaluation): calling Subscribe while a subscribe is in
flight posts the "Subscribing this stream." fault to the new failure
callback but, lacking the early return present in the parallel guard of
Unsubscribe, continues anyway: it overwrites the in-flight operation's
callback slot (7 becomes 8), adds a receive-only transceiver, and sends
the initialization message. -/
theorem subscribe_in_flight_proceeds :
    (subscribe c4Chan (some c4Stream) {} (some 8) (some 9)).posted
        = [(9, "Subscribing this stream.")] ∧
    (subscribe c4Chan (some c4Stream) {} (some 8) (some 9)).transceiversAdded
        = [⟨MediaKind.audio, TransceiverDirection.recvOnly⟩] ∧
    (subscribe c4Chan (some c4Stream) {} (some 8) (some 9)).initSent.isSome
        = true ∧
    (subscribe c4Chan (some c4Stream) {} (some 8) (some 9)).state.subscribeCb
        = some 8 ∧
    c4Chan.subscribeCb = some 7 :=
  ⟨rfl, rfl, rfl, rfl, rfl⟩

/-! ## Claim C5: Publish null-precondition checks -/

/-- A previously published stream, so that the C5 counterexample can
observe the state change performed before the failing check. -/
def c5PrevStream : LocalStream := { mediaStream := some ⟨"old", [⟨true⟩], []⟩ }

/-- A channel that already holds a published stream. -/
def c5Chan : Channel := { publishedStream := some c5PrevStream }

/-- Claim C5 counterexample: a Publish call with a null stream posts
exactly one null fault — the `||` of line 406 short-circuits, so the
media-handle check does not execute and does not report — and the channel
state was already mutated (published stream overwritten) before the first
failing check. -/
theorem publish_null_stream_counterexample :
    (publish c5Chan none none (some 4)).posted
        = [(4, "Nullptr is not allowed.")] ∧
    (publish c5Chan none none (some 4)).posted.length ≠ 2 ∧
    (publish c5Chan none none (some 4)).state.publishedStream
        ≠ c5Chan.publishedStream :=
  ⟨rfl, by decide, by decide⟩

/-- Claim C5 (amended): Publish records the stream argument as the
published stream before the checks; the null checks are short-circuited —
a null stream reports a single fault and skips the media-handle check,
while a non-null stream with a null media handle runs both checks and
reports a single fault; in both cases the check block does not return, so
the call falls through into a fatal dereference/check with no
initialization message sent. -/
theorem publish_null_precondition_behavior (c : Channel) (s : LocalStream)
    (onSuccess : Option Nat) (f : Nat) (hm : s.mediaStream = none) :
    ((publish c none onSuccess (some f)).posted
        = [(f, "Nullptr is not allowed.")] ∧
     (publish c none onSuccess (some f)).crashed = true ∧
     (publish c none onSuccess (some f)).initSent = none ∧
     (publish c none onSuccess (some f)).state.publishedStream = none) ∧
    ((publish c (some s) onSuccess (some f)).posted
        = [(f, "Nullptr is not allowed.")] ∧
     (publish c (some s) onSuccess (some f)).crashed = true ∧
     (publish c (some s) onSuccess (some f)).initSent = none ∧
     (publish c (some s) onSuccess (some f)).state.publishedStream = some s) := by
  simp [publish, hm, postFailure]

/-- A local stream with a null media handle for the C5 witness. -/
def c5NullMediaStream : LocalStream := { mediaStream := none }

/-- Claim C5 witness: the amended behavior at a concrete null-media
publish. -/
theorem publish_null_precondition_witness :
    (publish initialChannel (some c5NullMediaStream) none (some 4)).posted
        = [(4, "Nullptr is not allowed.")] ∧
    (publish initialChannel (some c5NullMediaStream) none
        (some 4)).state.publishedStream = some c5NullMediaStream :=
  ⟨(publish_null_precondition_behavior initialChannel c5NullMediaStream
      none 4 rfl).2.1,
   (publish_null_precondition_behavior initialChannel c5NullMediaStream
      none 4 rfl).2.2.2.2⟩

/-! ## Claim C6: OnStreamError observer notification -/

/-- The published stream of the C6 evaluation. -/
def c6Stream : LocalStream := { mediaStream := some ⟨"pm", [⟨true⟩], []⟩ }

/-- A channel with one registered observer and a published stream. -/
def c6Chan : Channel := { sessionId := "s6", observers := [0],
                          publishedStream := some c6Stream }

/-- Claim C6 (code evaluation): `OnStreamError` on a channel owning a
published stream notifies the registered observer with a NULL stream —
`error_stream` is only assigned after the observer loop — and then
attempts Unpublish (the "unpublish" stream event is sent and the peer
connection is closed). -/
theorem onStreamError_notifies_with_null_stream :
    (onStreamError c6Chan "err").notified = [(0, none, "err")] ∧
    (onStreamError c6Chan "err").events = ["unpublish"] ∧
    (onStreamError c6Chan "err").state.pcOpen = false :=
  ⟨rfl, rfl, rfl⟩

/-! ## Claim C10: Publish records the stream before any check -/

theorem publish_state_fields (c : Channel) (s : LocalStream)
    (onS onF : Option Nat) :
    (publish c (some s) onS onF).state.publishedStream = some s ∧
    (publish c (some s) onS onF).state.sessionId = c.sessionId := by
  cases hm : s.mediaStream with
  | none => simp [publish, hm]
  | some m =>
      by_cases h1 : isMediaStreamEnded m <;>
        by_cases h2 : ((m.audioTracks.length == 0) &&
            (m.videoTracks.length == 0)) = true <;>
          simp [publish, hm, h1, h2]

theorem unpublish_event_mem (c : Channel) (msg : String)
    (h : c.publishedStream.isSome = true) :
    "unpublish" ∈ (onStreamError c msg).events := by
  simp [onStreamError, h, unpublish]
  split <;> simp

/-- Claim C10: Publish records its stream argument as the channel's
published stream before any precondition check runs, so after every
Publish call (including rejected ones) the channel holds that stream,
which switches role-dependent operations to Publisher behavior:
SendStreamControlMessage routes the out-action to the stream-control
message, GetConnectionStats requests stats instead of posting the
no-stream fault, and OnStreamError teardown attempts Unpublish. -/
theorem publish_records_stream_before_checks (c : Channel) (s : LocalStream)
    (onSuccess onFailure : Option Nat)
    (inAction outAction operation msg : String) :
    (publish c (some s) onSuccess onFailure).state.publishedStream = some s ∧
    sendStreamControlMessage (publish c (some s) onSuccess onFailure).state
        inAction outAction operation
      = ControlRoute.streamControl
          (publish c (some s) onSuccess onFailure).state.sessionId
          outAction operation ∧
    getConnectionStats (publish c (some s) onSuccess onFailure).state
      = StatsResult.statsRequested ∧
    "unpublish" ∈ (onStreamError (publish c (some s) onSuccess onFailure).state
        msg).events := by
  obtain ⟨h1, h2⟩ := publish_state_fields c s onSuccess onFailure
  refine ⟨h1, ?_, ?_, ?_⟩
  · simp [sendStreamControlMessage, h1]
  · simp [getConnectionStats, h1]
  · exact unpublish_event_mem _ msg (by rw [h1]; rfl)

/-! ## Lemmas about the negotiation engine and candidate buffer -/

theorem negStep_sessionId (s : NegSys) (e : NegEvent) :
    (negStep s e).chan.sessionId = s.chan.sessionId := by
  cases e with
  | iceCandidate c =>
      by_cases h : s.chan.signalingState = SignalingState.stable <;>
        simp [negStep, h]
  | signalingChange st =>
      by_cases h : st = SignalingState.stable
      · by_cases h2 : s.chan.iceRestartNeeded <;> simp [negStep, h, h2]
      · simp [negStep, h]

theorem notMem_negStep (s : NegSys) (e : NegEvent) (m : SigMsg)
    (hq : m ∉ s.chan.iceCandidates) (hs : m ∉ s.sent)
    (hg : ∀ c, e = NegEvent.iceCandidate c →
      mkCandidateMsg s.chan.sessionId c ≠ m) :
    m ∉ (negStep s e).chan.iceCandidates ∧ m ∉ (negStep s e).sent := by
  cases e with
  | iceCandidate c =>
      have hne : m ≠ mkCandidateMsg s.chan.sessionId c :=
        fun hEq => hg c rfl hEq.symm
      by_cases h : s.chan.signalingState = SignalingState.stable <;>
        simp [negStep, h, List.mem_append, hq, hs, hne]
  | signalingChange st =>
      by_cases h : st = SignalingState.stable
      · by_cases h2 : s.chan.iceRestartNeeded <;>
          simp [negStep, h, h2, List.mem_append, hq, hs]
      · simp [negStep, h, hq, hs]

theorem notMem_runNeg (evs : List NegEvent) (s : NegSys) (m : SigMsg)
    (hq : m ∉ s.chan.iceCandidates) (hs : m ∉ s.sent)
    (hg : ∀ c, NegEvent.iceCandidate c ∈ evs →
      mkCandidateMsg s.chan.sessionId c ≠ m) :
    m ∉ (runNeg s evs).chan.iceCandidates ∧ m ∉ (runNeg s evs).sent := by
  induction evs generalizing s with
  | nil => exact ⟨hq, hs⟩
  | cons e t ih =>
      have hstep := notMem_negStep s e m hq hs (fun c hc => hg c (by simp [hc]))
      have hsid := negStep_sessionId s e
      have hg2 : ∀ c, NegEvent.iceCandidate c ∈ t →
          mkCandidateMsg (negStep s e).chan.sessionId c ≠ m := by
        intro c hc
        rw [hsid]
        exact hg c (by simp [hc])
      simpa only [runNeg, List.foldl_cons] using
        ih (negStep s e) hstep.1 hstep.2 hg2

theorem candidateMsgsOf_cons_cand (sid : String) (c : IceCandidate)
    (t : List NegEvent) :
    candidateMsgsOf sid (.iceCandidate c :: t)
      = mkCandidateMsg sid c :: candidateMsgsOf sid t := by
  simp [candidateMsgsOf]

theorem candidateMsgsOf_cons_change (sid : String) (st : SignalingState)
    (t : List NegEvent) :
    candidateMsgsOf sid (.signalingChange st :: t) = candidateMsgsOf sid t := by
  simp [candidateMsgsOf]

theorem runNeg_ordering (evs : List NegEvent) (s : NegSys)
    (hr : s.chan.iceRestartNeeded = false)
    (hst : s.chan.signalingState = SignalingState.stable →
      s.chan.iceCandidates = []) :
    (runNeg s evs).sent ++ (runNeg s evs).chan.iceCandidates
        = s.sent ++ s.chan.iceCandidates ++
          candidateMsgsOf s.chan.sessionId evs ∧
    (runNeg s evs).chan.iceRestartNeeded = false ∧
    ((runNeg s evs).chan.signalingState = SignalingState.stable →
      (runNeg s evs).chan.iceCandidates = []) := by
  induction evs generalizing s with
  | nil => exact ⟨by simp [runNeg, candidateMsgsOf], hr, hst⟩
  | cons e t ih =>
      have hr2 : (negStep s e).chan.iceRestartNeeded = false := by
        cases e with
        | iceCandidate c =>
            by_cases h : s.chan.signalingState = SignalingState.stable <;>
              simp [negStep, h, hr]
        | signalingChange st =>
            by_cases h : st = SignalingState.stable <;>
              simp [negStep, h, hr]
      have hst2 : (negStep s e).chan.signalingState = SignalingState.stable →
          (negStep s e).chan.iceCandidates = [] := by
        cases e with
        | iceCandidate c =>
            by_cases h : s.chan.signalingState = SignalingState.stable
            · simp [negStep, h, hst h]
            · simp [negStep, h]
        | signalingChange st =>
            by_cases h : st = SignalingState.stable <;>
              simp [negStep, h, hr]
      have ih2 := ih (negStep s e) hr2 hst2
      simp only [runNeg, List.foldl_cons] at ih2 ⊢
      refine ⟨?_, ih2.2.1, ih2.2.2⟩
      rw [ih2.1]
      cases e with
      | iceCandidate c =>
          by_cases h : s.chan.signalingState = SignalingState.stable
          · simp [negStep, h, hst h, candidateMsgsOf_cons_cand,
              List.append_assoc]
          · simp [negStep, h, candidateMsgsOf_cons_cand, List.append_assoc]
      | signalingChange st =>
          by_cases h : st = SignalingState.stable
          · simp [negStep, h, hr, candidateMsgsOf_cons_change,
              List.append_assoc]
          · simp [negStep, h, candidateMsgsOf_cons_change]

/-- Claim C2: on every signaling-state transition into Stable, if the
ice-restart-needed flag is set then the flag is cleared, the candidate
queue is cleared (candidates queued before the restart are never
transmitted by any later run that does not regenerate them), and a fresh
CreateOffer is issued with the transmitted list unchanged; otherwise the
queue is drained in FIFO order.  In both cases the candidate queue is
empty immediately after the transition's synchronous handling. -/
theorem signaling_stable_transition_spec (s : NegSys) :
    (negStep s (.signalingChange .stable)).chan.iceCandidates = [] ∧
    (s.chan.iceRestartNeeded = true →
      (negStep s (.signalingChange .stable)).chan.iceRestartNeeded = false ∧
      (negStep s (.signalingChange .stable)).offersRequested
          = s.offersRequested + 1 ∧
      (negStep s (.signalingChange .stable)).sent = s.sent ∧
      (∀ m ∈ s.chan.iceCandidates, m ∉ s.sent →
        ∀ evs, (∀ c, NegEvent.iceCandidate c ∈ evs →
            mkCandidateMsg s.chan.sessionId c ≠ m) →
          m ∉ (runNeg (negStep s (.signalingChange .stable)) evs).sent)) ∧
    (s.chan.iceRestartNeeded = false →
      (negStep s (.signalingChange .stable)).sent
          = s.sent ++ s.chan.iceCandidates ∧
      (negStep s (.signalingChange .stable)).offersRequested
          = s.offersRequested) := by
  refine ⟨?_, ?_, ?_⟩
  · by_cases h2 : s.chan.iceRestartNeeded <;> simp [negStep, h2]
  · intro hres
    refine ⟨by simp [negStep, hres], by simp [negStep, hres],
      by simp [negStep, hres], ?_⟩
    intro m _ hms evs hg
    have h1 : (negStep s (.signalingChange .stable)).chan.iceCandidates
        = [] := by
      simp [negStep, hres]
    have h2 : (negStep s (.signalingChange .stable)).sent = s.sent := by
      simp [negStep, hres]
    have h3 := negStep_sessionId s (.signalingChange .stable)
    exact (notMem_runNeg evs _ m (by simp [h1]) (by rw [h2]; exact hms)
      (by intro c hc; rw [h3]; exact hg c hc)).2
  · intro hres
    constructor <;> simp [negStep, hres]

/-- Queued candidate message for the C2 witness. -/
def c2Msg : SigMsg := .str "queuedA"

/-- A non-stable system with a pending ICE restart and one queued
candidate. -/
def c2Sys : NegSys :=
  { chan := { iceRestartNeeded := true, iceCandidates := [c2Msg],
              signalingState := .haveLocalOffer } }

/-- Claim C2 witness: a concrete restart-consuming transition clears the
queue and the flag, issues an offer, and the previously queued candidate
is never transmitted by a later run. -/
theorem signaling_stable_transition_witness :
    (negStep c2Sys (.signalingChange .stable)).chan.iceCandidates = [] ∧
    (negStep c2Sys (.signalingChange .stable)).chan.iceRestartNeeded = false ∧
    (negStep c2Sys (.signalingChange .stable)).offersRequested
        = c2Sys.offersRequested + 1 ∧
    c2Msg ∉ (runNeg (negStep c2Sys (.signalingChange .stable))
        [.signalingChange .haveLocalOffer, .signalingChange .stable]).sent := by
  refine ⟨(signaling_stable_transition_spec c2Sys).1,
    ((signaling_stable_transition_spec c2Sys).2.1 rfl).1,
    ((signaling_stable_transition_spec c2Sys).2.1 rfl).2.1,
    ((signaling_stable_transition_spec c2Sys).2.1 rfl).2.2.2 c2Msg
      (by simp [c2Sys]) (by simp [c2Sys]) _ ?_⟩
  intro c hc
  simp at hc

/-- Claim C3: for every sequence of locally generated ICE candidates
interleaved with signaling-state transitions and no intervening ICE
restart, each candidate is sent immediately when the state is Stable and
otherwise queued, and the sequence of candidate messages transmitted
(immediately or via FIFO drain) equals the generation order: at every
point the transmitted list followed by the still-queued list is exactly
the generated list. -/
theorem candidate_transmission_order (c0 : Channel) (evs : List NegEvent)
    (hr : c0.iceRestartNeeded = false) (hq : c0.iceCandidates = []) :
    (runNeg { chan := c0 } evs).sent ++
        (runNeg { chan := c0 } evs).chan.iceCandidates
      = candidateMsgsOf c0.sessionId evs := by
  have h := runNeg_ordering evs { chan := c0 } hr (fun _ => hq)
  simpa [hq] using h.1

/-- First candidate of the C3 witness. -/
def c3CandA : IceCandidate := ⟨"0", 0, "candA"⟩

/-- Second candidate of the C3 witness. -/
def c3CandB : IceCandidate := ⟨"0", 0, "candB"⟩

/-- A channel in a non-stable state for the C3 witness. -/
def c3Chan : Channel := { sessionId := "s3",
                          signalingState := .haveLocalOffer }

/-- Events of the C3 witness: a candidate queued while non-stable, a
draining transition to stable, then a candidate sent immediately. -/
def c3Events : List NegEvent :=
  [.iceCandidate c3CandA, .signalingChange .stable, .iceCandidate c3CandB]

/-- Claim C3 witness: the ordering theorem at a concrete interleaving. -/
theorem candidate_transmission_order_witness :
    (runNeg { chan := c3Chan } c3Events).sent ++
        (runNeg { chan := c3Chan } c3Events).chan.iceCandidates
      = candidateMsgsOf c3Chan.sessionId c3Events :=
  candidate_transmission_order c3Chan c3Events rfl rfl

end Owt
